import Mathlib

set_option linter.unreachableTactic false
set_option linter.unusedTactic false

/-!
Shallow embedding of the dynamic custom-attribute engine of
`nautobot/extras/models/customfields.py`.

Python JSON-ish runtime values are modelled by `Value`; Python's dynamic
operations (`==`, `in`, `int(...)`, `<`, `>`) are modelled by explicit
functions that return a `TypeError`-like failure exactly where CPython
would raise one that the source does not catch.
-/

/-- A Python runtime value as it can appear in `custom_field_data`
(JSON-typed) plus `datetime.date` objects, which `CustomField.validate`
treats specially. -/
inductive Value where
  | none
  | str (s : String)
  | int (n : Int)
  | bool (b : Bool)
  | list (vs : List Value)
  | date (y m d : Nat)
deriving Repr

mutual

/-- Python `==` on `Value`s: like structural equality except that
`bool` and `int` compare equal through the numeric value
(`True == 1`, `False == 0`), as in CPython where `bool` is an `int`. -/
def pyEq : Value → Value → Bool
  | Value.none, Value.none => true
  | Value.str a, Value.str b => a == b
  | Value.int a, Value.int b => a == b
  | Value.bool a, Value.bool b => a == b
  | Value.bool a, Value.int n => (if a then (1 : Int) else 0) == n
  | Value.int n, Value.bool b => n == (if b then (1 : Int) else 0)
  | Value.date y m d, Value.date y2 m2 d2 => y == y2 && m == m2 && d == d2
  | Value.list a, Value.list b => pyEqList a b
  | _, _ => false

/-- Elementwise Python `==` on lists. -/
def pyEqList : List Value → List Value → Bool
  | [], [] => true
  | x :: xs, y :: ys => pyEq x y && pyEqList xs ys
  | _, _ => false

end

/-- Python truthiness of a value (`if self.field.default:`). -/
def truthy : Value → Bool
  | Value.none => false
  | Value.str s => !s.isEmpty
  | Value.int n => n != 0
  | Value.bool b => b
  | Value.list vs => !vs.isEmpty
  | Value.date _ _ _ => true

/-- Whether `pre` is a prefix of `l`. -/
def charsPrefix : List Char → List Char → Bool
  | [], _ => true
  | _ :: _, [] => false
  | a :: as, b :: bs => a == b && charsPrefix as bs

/-- Whether `needle` occurs contiguously inside `l`. -/
def charsInfix (needle : List Char) : List Char → Bool
  | [] => charsPrefix needle []
  | b :: bs => charsPrefix needle (b :: bs) || charsInfix needle bs

/-- Whether the string `needle` occurs as a contiguous substring of `s`
(Python `needle in s`; the empty string is a substring of everything). -/
def strContains (s needle : String) : Bool :=
  charsInfix needle.data s.data

/-- Python `x in container` for a string `x`.  A string container does a
substring test, a list does elementwise `==`; any other container type
raises `TypeError`, which the source never catches. -/
def pyIn (x : String) : Value → Except Unit Bool
  | Value.str s => Except.ok (strContains s x)
  | Value.list vs => Except.ok (vs.any fun v => pyEq v (Value.str x))
  | _ => Except.error ()

/-- Lookup in a JSON object / Python dict modelled as an association list
(first binding wins, as names are unique). -/
def bagGet (bag : List (String × Value)) (k : String) : Option Value :=
  (bag.find? fun p => p.1 == k).map Prod.snd

/-- Python `int(value)` can succeed, raise `ValueError` (unparseable
string), or raise `TypeError` (`None`, lists, `date`s). The source only
catches `ValueError`. -/
inductive IntConv where
  | ok (n : Int)
  | valueError
  | typeError
deriving Repr, DecidableEq

/-- Drop leading spaces from a character list. -/
def dropSpaces : List Char → List Char
  | ' ' :: rest => dropSpaces rest
  | l => l

/-- Decimal value of a digit list. -/
def digitsVal : List Char → Nat → Nat
  | [], acc => acc
  | c :: cs, acc => digitsVal cs (acc * 10 + (c.toNat - 48))

/-- Parse of a decimal integer literal as Python `int(str)` accepts it:
surrounding whitespace, an optional sign, then one or more digits. -/
def parseIntPy (s : String) : Option Int :=
  let t := dropSpaces (dropSpaces s.data.reverse).reverse
  let neg := charsPrefix ['-'] t
  let core := if neg || charsPrefix ['+'] t then t.drop 1 else t
  if core.length > 0 && core.all Char.isDigit then
    some (if neg then -(Int.ofNat (digitsVal core 0)) else Int.ofNat (digitsVal core 0))
  else
    Option.none

/-- Python `int(value)`. -/
def pyInt : Value → IntConv
  | Value.int n => IntConv.ok n
  | Value.bool b => IntConv.ok (if b then 1 else 0)
  | Value.str s =>
    match parseIntPy s with
    | some n => IntConv.ok n
    | Option.none => IntConv.valueError
  | _ => IntConv.typeError

/-- Python `value < bound` against an `int` bound: defined for `int` and
`bool` values, `TypeError` otherwise (e.g. `str < int`). -/
def pyLtInt (v : Value) (bound : Int) : Except Unit Bool :=
  match v with
  | Value.int n => Except.ok (n < bound)
  | Value.bool b => Except.ok ((if b then (1 : Int) else 0) < bound)
  | _ => Except.error ()

/-- Python `value > bound` against an `int` bound. -/
def pyGtInt (v : Value) (bound : Int) : Except Unit Bool :=
  match v with
  | Value.int n => Except.ok (n > bound)
  | Value.bool b => Except.ok ((if b then (1 : Int) else 0) > bound)
  | _ => Except.error ()

/-- `value in [None, "", []]` — the emptiness test opening
`CustomField.validate`. -/
def isEmptyVal (v : Value) : Bool :=
  pyEq v Value.none || pyEq v (Value.str "") || pyEq v (Value.list [])

/-- Simple validity check of a `YYYY-MM-DD` string, standing in for
`datetime.strptime(value, "%Y-%m-%d")` (an external-library call; only
its success/failure on strings matters to the source). -/
def parseDateOk (s : String) : Bool :=
  match s.data.splitOn '-' with
  | [y, m, d] =>
    y.length == 4 && m.length == 2 && d.length == 2 &&
    (y.all Char.isDigit) && (m.all Char.isDigit) && (d.all Char.isDigit) &&
    (let mn := digitsVal m 0
     let dn := digitsVal d 0
     decide (1 ≤ mn) && decide (mn ≤ 12) && decide (1 ≤ dn) && decide (dn ≤ 31))
  | _ => false

/-- The `CustomFieldTypeChoices` relevant to validation. -/
inductive CFType where
  | text
  | integer
  | boolean
  | date
  | url
  | select
  | multiselect
deriving Repr, DecidableEq

/-- Schema record for one custom field (`CustomField`).  `choices` holds
the values of the owned `CustomFieldChoice` rows in their queryset order;
`content_types` holds the associated record-type identifiers (pks). -/
structure CustomField where
  pk : Nat
  name : String
  type : CFType
  required : Bool
  default : Value
  validation_minimum : Option Int
  validation_maximum : Option Int
  validation_regex : String
  choices : List String
  content_types : List Nat

/-- Outcome of a validating operation: a caught-and-reported
`ValidationError`, or an uncaught `TypeError` escaping the function. -/
inductive VErr where
  | validation (msg : String)
  | typeError
deriving Repr, DecidableEq

/-- Branch of `CustomField.validate` for text fields with a regex set.
`rm pattern s` models `re.match(pattern, s) is not None` (the regex
engine is an external collaborator; theorems hold for any matcher).
`re.match` on a non-string raises `TypeError`. -/
def checkTextRegex (rm : String → String → Bool) (f : CustomField) (v : Value) : Except VErr Unit :=
  if f.type = CFType.text ∧ f.validation_regex ≠ "" then
    match v with
    | Value.str s =>
      if rm f.validation_regex s then Except.ok () else
        Except.error (VErr.validation "Value must match regex")
    | _ => Except.error VErr.typeError
  else Except.ok ()

/-- Branch of `CustomField.validate` for integer fields: `int(value)`
with only `ValueError` caught, then bound checks comparing the raw
`value` (not its conversion) against the bounds. -/
def checkInteger (f : CustomField) (v : Value) : Except VErr Unit :=
  if f.type = CFType.integer then
    match pyInt v with
    | IntConv.typeError => Except.error VErr.typeError
    | IntConv.valueError => Except.error (VErr.validation "Value must be an integer.")
    | IntConv.ok _ =>
      match f.validation_minimum with
      | some m =>
        (match pyLtInt v m with
         | Except.error _ => Except.error VErr.typeError
         | Except.ok true => Except.error (VErr.validation "Value must be at least the minimum")
         | Except.ok false =>
           match f.validation_maximum with
           | some mx =>
             (match pyGtInt v mx with
              | Except.error _ => Except.error VErr.typeError
              | Except.ok true => Except.error (VErr.validation "Value must not exceed the maximum")
              | Except.ok false => Except.ok ())
           | Option.none => Except.ok ())
      | Option.none =>
        match f.validation_maximum with
        | some mx =>
          (match pyGtInt v mx with
           | Except.error _ => Except.error VErr.typeError
           | Except.ok true => Except.error (VErr.validation "Value must not exceed the maximum")
           | Except.ok false => Except.ok ())
        | Option.none => Except.ok ()
  else Except.ok ()

/-- Branch for boolean fields: `value not in [True, False, 1, 0]`. -/
def checkBoolean (f : CustomField) (v : Value) : Except VErr Unit :=
  if f.type = CFType.boolean then
    if pyEq v (Value.bool true) || pyEq v (Value.bool false) ||
       pyEq v (Value.int 1) || pyEq v (Value.int 0) then Except.ok ()
    else Except.error (VErr.validation "Value must be true or false.")
  else Except.ok ()

/-- Branch for date fields: a `date` object passes; a string must parse
as `YYYY-MM-DD` (`ValueError` caught); anything else makes `strptime`
raise an uncaught `TypeError`. -/
def checkDate (f : CustomField) (v : Value) : Except VErr Unit :=
  if f.type = CFType.date then
    match v with
    | Value.date _ _ _ => Except.ok ()
    | Value.str s =>
      if parseDateOk s then Except.ok () else
        Except.error (VErr.validation "Date values must be in the format YYYY-MM-DD.")
    | _ => Except.error VErr.typeError
  else Except.ok ()

/-- Branch for select fields: membership of `value` among the choice
values via `==`. -/
def checkSelect (f : CustomField) (v : Value) : Except VErr Unit :=
  if f.type = CFType.select then
    if f.choices.any fun c => pyEq v (Value.str c) then Except.ok ()
    else Except.error (VErr.validation "Invalid choice")
  else Except.ok ()

/-- Whether a value is unhashable in Python: of JSON-typed values only
lists are (`None`, strings, ints, bools and `date`s all hash). -/
def isUnhashable : Value → Bool
  | Value.list _ => true
  | _ => false

/-- Branch for multi-select fields: `set(value).issubset(choice values)`.
Building `set(value)` hashes every element first, so a list holding an
unhashable element (a nested list — legal JSON in `custom_field_data`)
raises an uncaught `TypeError` before any membership check; otherwise a
list is checked elementwise.  A string iterates its characters (each a
length-1 string in Python); other values are not iterable, so
`set(value)` raises an uncaught `TypeError`. -/
def checkMultiselect (f : CustomField) (v : Value) : Except VErr Unit :=
  if f.type = CFType.multiselect then
    match v with
    | Value.list vs =>
      if vs.any fun x => isUnhashable x then Except.error VErr.typeError
      else if vs.all fun x => f.choices.any fun c => pyEq x (Value.str c) then Except.ok ()
      else Except.error (VErr.validation "Invalid choices")
    | Value.str s =>
      if s.toList.all fun ch => f.choices.any fun c => c == String.mk [ch] then Except.ok ()
      else Except.error (VErr.validation "Invalid choices")
    | _ => Except.error VErr.typeError
  else Except.ok ()

/-- `CustomField.validate(value)`: empty values (`None`, `""`, `[]`) skip
the type checks but fail when the field is required; non-empty values run
the per-type branch. -/
def CustomField.validate (rm : String → String → Bool) (f : CustomField) (v : Value) : Except VErr Unit :=
  if isEmptyVal v then
    if f.required then Except.error (VErr.validation "Required field cannot be empty.")
    else Except.ok ()
  else do
    checkTextRegex rm f v
    checkInteger f v
    checkBoolean f v
    checkDate f v
    checkSelect f v
    checkMultiselect f v

/-- Errors raised by `CustomFieldModel.clean` (the AttributeBag
validation): the spec's UnknownFieldError, InvalidFieldValueError and
MissingRequiredFieldError, plus an uncaught `TypeError` escaping from
`CustomField.validate` (only `ValidationError` is caught there). -/
inductive CleanErr where
  | unknownField (name : String)
  | invalidValue (name msg : String)
  | missingRequired (name : String)
  | typeError
deriving Repr, DecidableEq

/-- A record carrying custom field data (the `CustomFieldModel` mixin);
`custom_field_data` is the JSON document, a dict in insertion order. -/
structure CustomFieldModel where
  custom_field_data : List (String × Value)

/-- First loop of `CustomFieldModel.clean`: iterate the stored items in
order; an unknown key or an invalid value raises immediately. -/
def validateEntries (rm : String → String → Bool) (custom_fields : List CustomField) :
    List (String × Value) → Except CleanErr Unit
  | [] => Except.ok ()
  | (k, v) :: rest =>
    match custom_fields.find? (fun cf => cf.name == k) with
    | Option.none => Except.error (CleanErr.unknownField k)
    | some cf =>
      match CustomField.validate rm cf v with
      | Except.error (VErr.validation msg) => Except.error (CleanErr.invalidValue k msg)
      | Except.error VErr.typeError => Except.error CleanErr.typeError
      | Except.ok _ => validateEntries rm custom_fields rest

/-- Second loop of `CustomFieldModel.clean`: a required field whose key
is absent from the data raises immediately. -/
def checkRequired (bag : List (String × Value)) : List CustomField → Except CleanErr Unit
  | [] => Except.ok ()
  | cf :: rest =>
    if cf.required && (bagGet bag cf.name).isNone then
      Except.error (CleanErr.missingRequired cf.name)
    else checkRequired bag rest

/-- `CustomFieldModel.clean`: validate every stored value against the
fields applicable to the record type, then check required fields.  Each
violation is raised at once — the first failure aborts the whole pass. -/
def CustomFieldModel.clean (rm : String → String → Bool) (custom_fields : List CustomField)
    (self : CustomFieldModel) : Except CleanErr Unit := do
  validateEntries rm custom_fields self.custom_field_data
  checkRequired self.custom_field_data custom_fields

/-- Errors raised by `CustomField.clean`: the immutability failures, the
default-value failures and the constraint-scope failures, in source
order. -/
inductive FieldCleanErr where
  | immutableName
  | immutableType
  | invalidDefault (msg : String)
  | minScope
  | maxScope
  | regexScope
  | choicesScope
  | defaultNotChoice
  | typeError
deriving Repr, DecidableEq

/-- Immutability step of `CustomField.clean`: run only when
`present_in_database`, against the previously stored row. -/
def immutStep (self : CustomField) (database_object : Option CustomField) :
    Except FieldCleanErr Unit :=
  match database_object with
  | some dbo =>
    if self.name ≠ dbo.name then Except.error FieldCleanErr.immutableName
    else if self.type ≠ dbo.type then Except.error FieldCleanErr.immutableType
    else Except.ok ()
  | Option.none => Except.ok ()

/-- Default-validation step of `CustomField.clean`
(`if self.default is not None: self.validate(self.default)` with
`ValidationError` wrapped and `TypeError` escaping). -/
def defaultStep (rm : String → String → Bool) (self : CustomField) :
    Except FieldCleanErr Unit :=
  match self.default with
  | Value.none => Except.ok ()
  | d =>
    match CustomField.validate rm self d with
    | Except.error (VErr.validation msg) => Except.error (FieldCleanErr.invalidDefault msg)
    | Except.error VErr.typeError => Except.error FieldCleanErr.typeError
    | Except.ok _ => Except.ok ()

/-- Scope step: minimum only on integer fields. -/
def minScopeStep (self : CustomField) : Except FieldCleanErr Unit :=
  if self.validation_minimum.isSome ∧ self.type ≠ CFType.integer then
    Except.error FieldCleanErr.minScope
  else Except.ok ()

/-- Scope step: maximum only on integer fields. -/
def maxScopeStep (self : CustomField) : Except FieldCleanErr Unit :=
  if self.validation_maximum.isSome ∧ self.type ≠ CFType.integer then
    Except.error FieldCleanErr.maxScope
  else Except.ok ()

/-- Scope step: regex only on text and url fields. -/
def regexScopeStep (self : CustomField) : Except FieldCleanErr Unit :=
  if self.validation_regex ≠ "" ∧ self.type ≠ CFType.text ∧ self.type ≠ CFType.url then
    Except.error FieldCleanErr.regexScope
  else Except.ok ()

/-- Scope step: existing choices only on selection fields. -/
def choicesScopeStep (self : CustomField) : Except FieldCleanErr Unit :=
  if self.choices ≠ [] ∧ self.type ≠ CFType.select ∧ self.type ≠ CFType.multiselect then
    Except.error FieldCleanErr.choicesScope
  else Except.ok ()

/-- Final step: a truthy default of a select field must appear among the
choice values. -/
def selectDefaultStep (self : CustomField) : Except FieldCleanErr Unit :=
  if self.type = CFType.select ∧ truthy self.default = true ∧
      (self.choices.any fun c => pyEq self.default (Value.str c)) = false then
    Except.error FieldCleanErr.defaultNotChoice
  else Except.ok ()

/-- `CustomField.clean`: `database_object` is the previously stored row
(`self.__class__.objects.get(pk=self.pk)`) when `present_in_database`,
else `none`.  The function is pure: it never writes to the store, so the
stored row is untouched whatever the outcome. -/
def CustomField.clean (rm : String → String → Bool) (self : CustomField)
    (database_object : Option CustomField) : Except FieldCleanErr Unit := do
  immutStep self database_object
  defaultStep rm self
  minScopeStep self
  maxScopeStep self
  regexScopeStep self
  choicesScopeStep self
  selectDefaultStep self

/-- Python `repr` of a string: single quotes, or double quotes when the
string itself contains a single quote (escaping of strings holding both
quote kinds is not modelled; no such value is used here). -/
def pyReprStr (s : String) : String :=
  if strContains s "'" then "\x22" ++ s ++ "\x22" else "'" ++ s ++ "'"

mutual

/-- Python `repr` of a JSON-ish value, as it appears for list elements
inside `str(some_list)`. -/
def pyRepr : Value → String
  | Value.none => "None"
  | Value.str s => pyReprStr s
  | Value.int n => toString n
  | Value.bool b => if b then "True" else "False"
  | Value.date y m d =>
    "datetime.date(" ++ toString y ++ ", " ++ toString m ++ ", " ++ toString d ++ ")"
  | Value.list vs => "[" ++ pyReprList vs ++ "]"

/-- Comma-separated `repr`s of the elements of a Python list. -/
def pyReprList : List Value → String
  | [] => ""
  | [x] => pyRepr x
  | x :: xs => pyRepr x ++ ", " ++ pyReprList xs

end

/-- Left-pad a numeral with zeros to the given width (ISO dates). -/
def padNum (width n : Nat) : String :=
  let s := toString n
  if s.length < width then String.mk (List.replicate (width - s.length) '0') ++ s else s

/-- Python `str(value)`, as Django's `CharField.get_prep_value` applies
it to a non-string, non-`None` lookup value: a string is returned
unchanged, `str` of a `date` is its ISO form, and every other value
renders as its `repr` (for a list, brackets around the elements'
`repr`s — so `str(["a"])` is `['a']` with quotes around `a`). -/
def pyStr : Value → String
  | Value.str s => s
  | Value.date y m d => padNum 4 y ++ "-" ++ padNum 2 m ++ "-" ++ padNum 2 d
  | v => pyRepr v

/-- The declarative parts of the form field built by
`CustomField.to_form_field` that the spec's round-trip property speaks
about: the requiredness, the initial value, and for selection types the
choice list and whether a blank choice is prepended. -/
structure FormField where
  required : Bool
  initial : Value
  choices : List (String × String)
  blankFirst : Bool

/-- `CustomField.to_form_field(set_initial, enforce_required,
for_csv_import)`.  `initial` starts as the default (when `set_initial`);
for select/multi-select types, `choices.filter(value=default).first()`
may reseed `initial` with the found choice's value.  The filter is a
CharField exact lookup: `None` becomes `IS NULL` and matches no row of
the non-null column, a string compares as-is, and any other value is
coerced through Python `str()` by `CharField.get_prep_value` — so a
list default can match a choice whose stored text equals the list's
`str()` rendering.  `for_csv_import` only changes the widget class,
which carries no data modelled here. -/
def CustomField.to_form_field (f : CustomField)
    (set_initial enforce_required _for_csv_import : Bool) : FormField :=
  let initial := if set_initial then f.default else Value.none
  let required := if enforce_required then f.required else false
  match f.type with
  | CFType.select | CFType.multiselect =>
    let cpairs := f.choices.map fun c => (c, c)
    let default_choice :=
      match f.default with
      | Value.none => Option.none
      | d => f.choices.find? fun c => c == pyStr d
    let blank := !required || default_choice.isNone
    let initial2 :=
      if set_initial then
        match default_choice with
        | some c => Value.str c
        | Option.none => initial
      else initial
    { required := required, initial := initial2, choices := cpairs, blankFirst := blank }
  | _ => { required := required, initial := initial, choices := [], blankFirst := false }

/-- Observable actions of `CustomField.delete`, in program order. -/
inductive FieldDeleteEvent where
  | removeRow (name : String)
  | enqueuePurge (name : String) (content_types : List Nat)
deriving Repr, DecidableEq

/-- Record-type identifiers currently associated with the named field in
the many-to-many table (`self.content_types.values_list("pk", flat=True)`;
pks are distinct, so a list models the `set`). -/
def assocCts (assocs : List (String × Nat)) (name : String) : List Nat :=
  (assocs.filter fun p => p.1 == name).map Prod.snd

/-- `CustomField.delete`: read the associated content-type pks, then
`super().delete()` (which cascades away the associations), then enqueue
`delete_custom_field_data.delay(self.name, content_types)`. -/
def CustomField.delete (self : CustomField) (assocs : List (String × Nat)) :
    List (String × Nat) × List FieldDeleteEvent :=
  let content_types := assocCts assocs self.name
  let assocs2 := assocs.filter fun p => p.1 != self.name
  (assocs2, [FieldDeleteEvent.removeRow self.name,
             FieldDeleteEvent.enqueuePurge self.name content_types])

/-- One `CustomFieldChoice` row; `field` is the denormalized owning
`CustomField` reached through the foreign key. -/
structure CustomFieldChoice where
  pk : Nat
  field : CustomField
  value : String
  weight : Nat

/-- Observable actions of `CustomFieldChoice.save`, in program order. -/
inductive ChoiceSaveEvent where
  | persist (pk : Nat) (value : String)
  | enqueueRewrite (fieldPk : Nat) (oldValue newValue : String)
deriving Repr, DecidableEq

/-- `CustomFieldChoice.save`: when the row is already persisted, read the
stored row first; `database_object` falls back to `self` on first save.
After `super().save()`, enqueue
`update_custom_field_choice_data.delay(field.pk, old, new)` only when the
value changed relative to `database_object`. -/
def CustomFieldChoice.save (self : CustomFieldChoice) (db : List CustomFieldChoice) :
    List ChoiceSaveEvent :=
  let database_object_value :=
    match db.find? fun r => r.pk == self.pk with
    | some r => r.value
    | Option.none => self.value
  ChoiceSaveEvent.persist self.pk self.value ::
    (if self.value ≠ database_object_value then
       [ChoiceSaveEvent.enqueueRewrite self.field.pk database_object_value self.value]
     else [])

/-- Outcome of `CustomFieldChoice.delete`: success, one of the two
`ProtectedError` reasons, or an uncaught `TypeError` from `in` applied
to a non-container default. -/
inductive ChoiceDeleteResult where
  | deleted
  | isDefaultError
  | inUseError
  | typeError
deriving Repr, DecidableEq

/-- Django JSONField `__contains` lookup against the stored value: for a
stored array, membership; for a scalar, equality. -/
def jsonContains (stored : Value) (x : String) : Bool :=
  match stored with
  | Value.list vs => vs.any fun v => pyEq v (Value.str x)
  | v => pyEq v (Value.str x)

/-- The record store, per content type: ct pk ↦ the `custom_field_data`
bags of the records of that type. -/
def recordsOf (db : List (Nat × List (List (String × Value)))) (ct : Nat) :
    List (List (String × Value)) :=
  match db.find? fun p => p.1 == ct with
  | some p => p.2
  | Option.none => []

/-- The default-protection guard opening `CustomFieldChoice.delete`
(`if self.field.default:` ...): `some r` means the function raises with
`r` before any in-use scan; `none` means it falls through to the scan. -/
def defaultCheck (self : CustomFieldChoice) : Option ChoiceDeleteResult :=
  if truthy self.field.default then
    if self.field.type = CFType.select ∧ pyEq self.field.default (Value.str self.value) = true then
      some ChoiceDeleteResult.isDefaultError
    else
      match pyIn self.value self.field.default with
      | Except.error _ => some ChoiceDeleteResult.typeError
      | Except.ok true => some ChoiceDeleteResult.isDefaultError
      | Except.ok false => Option.none
  else Option.none

/-- In-use scan for a select field: some record of some applicable
content type stores exactly this value for the field. -/
def selectInUse (self : CustomFieldChoice)
    (db : List (Nat × List (List (String × Value)))) : Bool :=
  self.field.content_types.any fun ct =>
    (recordsOf db ct).any fun bag =>
      match bagGet bag self.field.name with
      | some v => pyEq v (Value.str self.value)
      | Option.none => false

/-- In-use scan for any non-select field (the source's `else` branch):
`__contains` lookup on the stored value. -/
def multiInUse (self : CustomFieldChoice)
    (db : List (Nat × List (List (String × Value)))) : Bool :=
  self.field.content_types.any fun ct =>
    (recordsOf db ct).any fun bag =>
      match bagGet bag self.field.name with
      | some v => jsonContains v self.value
      | Option.none => false

/-- `CustomFieldChoice.delete`: the default-protection guard, then the
in-use scan over every applicable content type, then `super().delete()`.
`choiceRows` is the persisted choice table `(pk, value)`; a protected
delete leaves it untouched. -/
def CustomFieldChoice.delete (self : CustomFieldChoice)
    (choiceRows : List (Nat × String))
    (db : List (Nat × List (List (String × Value)))) :
    List (Nat × String) × ChoiceDeleteResult :=
  match defaultCheck self with
  | some r => (choiceRows, r)
  | Option.none =>
    if self.field.type = CFType.select then
      if selectInUse self db then (choiceRows, ChoiceDeleteResult.inUseError)
      else (choiceRows.filter fun p => p.1 != self.pk, ChoiceDeleteResult.deleted)
    else
      if multiInUse self db then (choiceRows, ChoiceDeleteResult.inUseError)
      else (choiceRows.filter fun p => p.1 != self.pk, ChoiceDeleteResult.deleted)

/-- Values whose runtime type fits the checks `CustomField.validate`
runs for the given field type, so that no branch can hit an uncaught
`TypeError`: an `int`/`bool` for integer fields, a string for
regex-checked text, a `date` or string for date fields, and for
multi-select a string or a list of hashable elements (`set(value)`
raises `TypeError` on a nested list); url, boolean and select checks
never raise `TypeError`, so any value fits them. -/
def runtimeTyped : CFType → Value → Bool
  | CFType.integer, Value.int _ => true
  | CFType.integer, Value.bool _ => true
  | CFType.text, Value.str _ => true
  | CFType.url, _ => true
  | CFType.boolean, _ => true
  | CFType.date, Value.date _ _ _ => true
  | CFType.date, Value.str _ => true
  | CFType.select, _ => true
  | CFType.multiselect, Value.list vs => vs.all fun x => !isUnhashable x
  | CFType.multiselect, Value.str _ => true
  | _, _ => false

/-- Modelled from the spec's words, for comparison with the source's
behavior: a value "losslessly convertible to an integer" — an integer
itself, a bool (a Python `int`), or a string spelling a decimal
integer. -/
def specLosslessInt : Value → Option Int
  | Value.int n => some n
  | Value.bool b => some (if b then 1 else 0)
  | Value.str s => parseIntPy s
  | _ => Option.none

/-- Modelled from the spec's words: the success condition claimed for
integer-field validation — lossless convertibility plus the inclusive
bounds when set. -/
def specIntegerOk (f : CustomField) (v : Value) : Prop :=
  ∃ n, specLosslessInt v = some n ∧
    (∀ m, f.validation_minimum = some m → m ≤ n) ∧
    (∀ mx, f.validation_maximum = some mx → n ≤ mx)

/-- A validation outcome that is either success or a reported
`ValidationError` — the two shapes the spec's `validate` contract allows. -/
def okOrValidation (x : Except VErr Unit) : Prop :=
  x = Except.ok () ∨ ∃ msg, x = Except.error (VErr.validation msg)

/-- A `match` over an `Option` returning `false` on `none` is `true` iff
the option holds a value satisfying the predicate. -/
theorem match_option_eq_true (m : Option Value) (p : Value → Bool) :
    (match m with | some v => p v | Option.none => false) = true ↔
      ∃ v, m = some v ∧ p v = true := by
  cases m <;> simp

/-- C8: `CustomField.delete` enqueues one purge request carrying the
field's name and the content-type identifiers read from the association
table before the row (and its associations) are removed; afterwards the
association table holds nothing for the field, so the payload could not
be rebuilt post-deletion. -/
theorem customfield_delete_purge_payload (self : CustomField) (assocs : List (String × Nat)) :
    (CustomField.delete self assocs).2 =
      [FieldDeleteEvent.removeRow self.name,
       FieldDeleteEvent.enqueuePurge self.name (assocCts assocs self.name)] ∧
    assocCts (CustomField.delete self assocs).1 self.name = [] := by
  refine ⟨rfl, ?_⟩
  simp [CustomField.delete, assocCts, List.filter_filter]

/-- C7: on an already-persisted choice row, `save` persists the row and
then enqueues exactly one rewrite request iff the value changed, with
the old value taken from the row previously read back from storage. -/
theorem choice_save_update_enqueues_iff_changed (self : CustomFieldChoice)
    (db : List CustomFieldChoice) (r : CustomFieldChoice)
    (h : db.find? (fun c => c.pk == self.pk) = some r) :
    CustomFieldChoice.save self db =
      ChoiceSaveEvent.persist self.pk self.value ::
        (if self.value = r.value then []
         else [ChoiceSaveEvent.enqueueRewrite self.field.pk r.value self.value]) := by
  by_cases hv : self.value = r.value <;> simp [CustomFieldChoice.save, h, hv]

/-- Witness for C7: a stored row with value "old" saved with value
"new" persists and then enqueues the single rewrite (1, "old", "new"). -/
theorem choice_save_update_enqueues_iff_changed_witness :
    CustomFieldChoice.save
      { pk := 4,
        field := { pk := 1, name := "env", type := CFType.select, required := false,
                   default := Value.none, validation_minimum := Option.none,
                   validation_maximum := Option.none, validation_regex := "",
                   choices := ["new"], content_types := [7] },
        value := "new", weight := 100 }
      [{ pk := 4,
         field := { pk := 1, name := "env", type := CFType.select, required := false,
                    default := Value.none, validation_minimum := Option.none,
                    validation_maximum := Option.none, validation_regex := "",
                    choices := ["new"], content_types := [7] },
         value := "old", weight := 100 }] =
      [ChoiceSaveEvent.persist 4 "new", ChoiceSaveEvent.enqueueRewrite 1 "old" "new"] := by
  have h := choice_save_update_enqueues_iff_changed
    { pk := 4,
      field := { pk := 1, name := "env", type := CFType.select, required := false,
                 default := Value.none, validation_minimum := Option.none,
                 validation_maximum := Option.none, validation_regex := "",
                 choices := ["new"], content_types := [7] },
      value := "new", weight := 100 }
    [{ pk := 4,
       field := { pk := 1, name := "env", type := CFType.select, required := false,
                  default := Value.none, validation_minimum := Option.none,
                  validation_maximum := Option.none, validation_regex := "",
                  choices := ["new"], content_types := [7] },
       value := "old", weight := 100 }]
    { pk := 4,
      field := { pk := 1, name := "env", type := CFType.select, required := false,
                 default := Value.none, validation_minimum := Option.none,
                 validation_maximum := Option.none, validation_regex := "",
                 choices := ["new"], content_types := [7] },
      value := "old", weight := 100 }
    (by rfl)
  simpa using h

/-- C10: on a first-time save (no stored row with this pk), `save`
persists the row and enqueues nothing, whatever the value. -/
theorem choice_save_create_enqueues_nothing (self : CustomFieldChoice)
    (db : List CustomFieldChoice)
    (h : db.find? (fun c => c.pk == self.pk) = Option.none) :
    CustomFieldChoice.save self db = [ChoiceSaveEvent.persist self.pk self.value] := by
  simp [CustomFieldChoice.save, h]

/-- Witness for C10: saving a new row against an empty choice table
yields only the persist action. -/
theorem choice_save_create_enqueues_nothing_witness :
    CustomFieldChoice.save
      { pk := 9,
        field := { pk := 1, name := "env", type := CFType.select, required := false,
                   default := Value.none, validation_minimum := Option.none,
                   validation_maximum := Option.none, validation_regex := "",
                   choices := [], content_types := [] },
        value := "fresh", weight := 100 } [] =
      [ChoiceSaveEvent.persist 9 "fresh"] := by
  exact choice_save_create_enqueues_nothing
    { pk := 9,
      field := { pk := 1, name := "env", type := CFType.select, required := false,
                 default := Value.none, validation_minimum := Option.none,
                 validation_maximum := Option.none, validation_regex := "",
                 choices := [], content_types := [] },
      value := "fresh", weight := 100 } [] (by rfl)

/-- C1 counterexample: a bag whose only key "color" is unknown while the
applicable required field "priority" is absent.  A single `clean()` call
raises only the unknown-field error; the missing-required error, which
the claim says is reported in the same call, never surfaces because the
first loop raises before the required-fields loop runs. -/
theorem clean_shortcircuits_counterexample :
    CustomFieldModel.clean (fun _ _ => true)
      [{ pk := 1, name := "priority", type := CFType.integer, required := true,
         default := Value.none, validation_minimum := some 1, validation_maximum := some 5,
         validation_regex := "", choices := [], content_types := [3] }]
      { custom_field_data := [("color", Value.str "red")] } =
      Except.error (CleanErr.unknownField "color") ∧
    CustomFieldModel.clean (fun _ _ => true)
      [{ pk := 1, name := "priority", type := CFType.integer, required := true,
         default := Value.none, validation_minimum := some 1, validation_maximum := some 5,
         validation_regex := "", choices := [], content_types := [3] }]
      { custom_field_data := [("color", Value.str "red")] } ≠
      Except.error (CleanErr.missingRequired "priority") := by
  refine ⟨rfl, ?_⟩
  intro h
  simp [CustomFieldModel.clean, validateEntries, Bind.bind, Except.bind] at h

/-- C1 amended: `CustomFieldModel.clean` short-circuits at the first
violation.  When the first stored key matches no applicable field, the
call reports exactly the unknown-field error for that key — in
particular a simultaneously missing required field is not reported in
the same call. -/
theorem clean_reports_first_unknown_key (rm : String → String → Bool)
    (custom_fields : List CustomField) (k : String) (v : Value)
    (rest : List (String × Value))
    (h : ∀ cf ∈ custom_fields, cf.name ≠ k) :
    CustomFieldModel.clean rm custom_fields { custom_field_data := (k, v) :: rest } =
      Except.error (CleanErr.unknownField k) := by
  have hf : custom_fields.find? (fun cf => cf.name == k) = Option.none := by
    rw [List.find?_eq_none]
    intro cf hcf
    simpa using h cf hcf
  simp [CustomFieldModel.clean, validateEntries, hf, Bind.bind, Except.bind]

/-- Witness for the amended C1 at the counterexample's input. -/
theorem clean_reports_first_unknown_key_witness :
    CustomFieldModel.clean (fun _ _ => true)
      [{ pk := 1, name := "priority", type := CFType.integer, required := true,
         default := Value.none, validation_minimum := some 1, validation_maximum := some 5,
         validation_regex := "", choices := [], content_types := [3] }]
      { custom_field_data := [("color", Value.str "red")] } =
      Except.error (CleanErr.unknownField "color") := by
  exact clean_reports_first_unknown_key (fun _ _ => true)
    [{ pk := 1, name := "priority", type := CFType.integer, required := true,
       default := Value.none, validation_minimum := some 1, validation_maximum := some 5,
       validation_regex := "", choices := [], content_types := [3] }]
    "color" (Value.str "red") [] (by decide)

/-- The default-validation step returns ok, a wrapped default error, or
the escaped `TypeError` — never an immutability error. -/
theorem defaultStep_shape (rm : String → String → Bool) (self : CustomField) :
    defaultStep rm self = Except.ok () ∨
    (∃ msg, defaultStep rm self = Except.error (FieldCleanErr.invalidDefault msg)) ∨
    defaultStep rm self = Except.error FieldCleanErr.typeError := by
  unfold defaultStep
  split
  · left; rfl
  · split
    all_goals first
      | (left; rfl)
      | (right; left; exact ⟨_, rfl⟩)
      | (right; right; rfl)

/-- The minimum-scope step returns ok or its own error. -/
theorem minScopeStep_shape (self : CustomField) :
    minScopeStep self = Except.ok () ∨ minScopeStep self = Except.error FieldCleanErr.minScope := by
  unfold minScopeStep; split <;> simp

/-- The maximum-scope step returns ok or its own error. -/
theorem maxScopeStep_shape (self : CustomField) :
    maxScopeStep self = Except.ok () ∨ maxScopeStep self = Except.error FieldCleanErr.maxScope := by
  unfold maxScopeStep; split <;> simp

/-- The regex-scope step returns ok or its own error. -/
theorem regexScopeStep_shape (self : CustomField) :
    regexScopeStep self = Except.ok () ∨
    regexScopeStep self = Except.error FieldCleanErr.regexScope := by
  unfold regexScopeStep; split <;> simp

/-- The choices-scope step returns ok or its own error. -/
theorem choicesScopeStep_shape (self : CustomField) :
    choicesScopeStep self = Except.ok () ∨
    choicesScopeStep self = Except.error FieldCleanErr.choicesScope := by
  unfold choicesScopeStep; split <;> simp

/-- The select-default step returns ok or its own error. -/
theorem selectDefaultStep_shape (self : CustomField) :
    selectDefaultStep self = Except.ok () ∨
    selectDefaultStep self = Except.error FieldCleanErr.defaultNotChoice := by
  unfold selectDefaultStep; split <;> simp

/-- Without a stored row, `clean` can fail in many ways, but never with
an immutability error. -/
theorem clean_none_ne_immutable (rm : String → String → Bool) (self : CustomField) :
    CustomField.clean rm self Option.none ≠ Except.error FieldCleanErr.immutableName ∧
    CustomField.clean rm self Option.none ≠ Except.error FieldCleanErr.immutableType := by
  unfold CustomField.clean
  rcases defaultStep_shape rm self with h1 | ⟨msg, h1⟩ | h1 <;>
  rcases minScopeStep_shape self with h2 | h2 <;>
  rcases maxScopeStep_shape self with h3 | h3 <;>
  rcases regexScopeStep_shape self with h4 | h4 <;>
  rcases choicesScopeStep_shape self with h5 | h5 <;>
  rcases selectDefaultStep_shape self with h6 | h6 <;>
  simp [immutStep, h1, h2, h3, h4, h5, h6, Bind.bind, Except.bind]

/-- With matching name and type, the immutability step passes and
`clean` behaves as on a fresh row. -/
theorem clean_some_matching_eq_none (rm : String → String → Bool)
    (self dbo : CustomField) (hn : self.name = dbo.name) (ht : self.type = dbo.type) :
    CustomField.clean rm self (some dbo) = CustomField.clean rm self Option.none := by
  unfold CustomField.clean
  simp [immutStep, hn, ht]

/-- C2: with a previously stored row present, `CustomField.clean` fails
with the name-immutability error when the name was changed, with the
type-immutability error when only the type was changed, and never raises
either immutability error when both match; being pure, it leaves the
stored row (an input here) untouched in every case. -/
theorem customfield_clean_immutable (rm : String → String → Bool)
    (self dbo : CustomField) :
    (self.name ≠ dbo.name →
      CustomField.clean rm self (some dbo) = Except.error FieldCleanErr.immutableName) ∧
    (self.name = dbo.name → self.type ≠ dbo.type →
      CustomField.clean rm self (some dbo) = Except.error FieldCleanErr.immutableType) ∧
    (self.name = dbo.name → self.type = dbo.type →
      CustomField.clean rm self (some dbo) ≠ Except.error FieldCleanErr.immutableName ∧
      CustomField.clean rm self (some dbo) ≠ Except.error FieldCleanErr.immutableType) := by
  refine ⟨?_, ?_, ?_⟩
  · intro hn
    simp [CustomField.clean, immutStep, hn, Bind.bind, Except.bind]
  · intro hn ht
    simp [CustomField.clean, immutStep, hn, ht, Bind.bind, Except.bind]
  · intro hn ht
    rw [clean_some_matching_eq_none rm self dbo hn ht]
    exact clean_none_ne_immutable rm self

/-- Witness for C2: changing the name of a stored text field from "site"
to "location" makes `clean` fail with the name-immutability error. -/
theorem customfield_clean_immutable_witness :
    CustomField.clean (fun _ _ => true)
      { pk := 2, name := "location", type := CFType.text, required := false,
        default := Value.none, validation_minimum := Option.none, validation_maximum := Option.none,
        validation_regex := "", choices := [], content_types := [3] }
      (some { pk := 2, name := "site", type := CFType.text, required := false,
              default := Value.none, validation_minimum := Option.none,
              validation_maximum := Option.none, validation_regex := "",
              choices := [], content_types := [3] }) =
      Except.error FieldCleanErr.immutableName := by
  exact (customfield_clean_immutable (fun _ _ => true)
    { pk := 2, name := "location", type := CFType.text, required := false,
      default := Value.none, validation_minimum := Option.none, validation_maximum := Option.none,
      validation_regex := "", choices := [], content_types := [3] }
    { pk := 2, name := "site", type := CFType.text, required := false,
      default := Value.none, validation_minimum := Option.none, validation_maximum := Option.none,
      validation_regex := "", choices := [], content_types := [3] }).1 (by decide)

/-- An if-then-else between success and a `ValidationError` is always in
the ok-or-ValidationError shape. -/
theorem okOrValidation_ite (c : Prop) [Decidable c] (m : String) :
    okOrValidation (if c then Except.ok () else Except.error (VErr.validation m)) := by
  unfold okOrValidation
  split
  · left; rfl
  · right; exact ⟨m, rfl⟩

/-- Sequencing two steps that each end ok-or-ValidationError ends
ok-or-ValidationError. -/
theorem okOrValidation_bind (a : Except VErr Unit) (k : Unit → Except VErr Unit)
    (ha : okOrValidation a) (hk : okOrValidation (k ())) :
    okOrValidation (a >>= k) := by
  rcases ha with ha | ⟨msg, ha⟩
  · simpa [ha, Bind.bind, Except.bind] using hk
  · right; exact ⟨msg, by simp [ha, Bind.bind, Except.bind]⟩

/-- The text-regex branch cannot raise `TypeError` when a text field is
given a string (or the regex is unset). -/
theorem okOrValidation_checkTextRegex (rm : String → String → Bool) (f : CustomField) (v : Value)
    (h : f.type = CFType.text → f.validation_regex ≠ "" → ∃ s, v = Value.str s) :
    okOrValidation (checkTextRegex rm f v) := by
  unfold checkTextRegex
  split
  · rename_i hc
    obtain ⟨s, rfl⟩ := h hc.1 hc.2
    exact okOrValidation_ite _ _
  · left; rfl

/-- The integer branch cannot raise `TypeError` when an integer field is
given an `int` (or Python `bool`). -/
theorem okOrValidation_checkInteger (f : CustomField) (v : Value)
    (h : f.type = CFType.integer → (∃ n, v = Value.int n) ∨ (∃ b, v = Value.bool b)) :
    okOrValidation (checkInteger f v) := by
  unfold checkInteger
  split
  · rename_i hc
    rcases h hc with ⟨n, rfl⟩ | ⟨b, rfl⟩ <;>
    · rcases hmin : f.validation_minimum with _ | m <;>
      rcases hmax : f.validation_maximum with _ | mx <;>
      · simp only [hmin, hmax, pyInt, pyLtInt, pyGtInt]
        repeat' split
        all_goals first
          | (left; rfl)
          | (right; exact ⟨_, rfl⟩)
          | simp_all
  · left; rfl

/-- The boolean branch never raises `TypeError`. -/
theorem okOrValidation_checkBoolean (f : CustomField) (v : Value) :
    okOrValidation (checkBoolean f v) := by
  unfold checkBoolean
  split
  · exact okOrValidation_ite _ _
  · left; rfl

/-- The date branch cannot raise `TypeError` when a date field is given
a `date` object or a string. -/
theorem okOrValidation_checkDate (f : CustomField) (v : Value)
    (h : f.type = CFType.date → (∃ y m d, v = Value.date y m d) ∨ (∃ s, v = Value.str s)) :
    okOrValidation (checkDate f v) := by
  unfold checkDate
  split
  · rename_i hc
    rcases h hc with ⟨y, m, d, rfl⟩ | ⟨s, rfl⟩
    · left; rfl
    · exact okOrValidation_ite _ _
  · left; rfl

/-- The select branch never raises `TypeError` (membership is by `==`
over the choice queryset). -/
theorem okOrValidation_checkSelect (f : CustomField) (v : Value) :
    okOrValidation (checkSelect f v) := by
  unfold checkSelect
  split
  · exact okOrValidation_ite _ _
  · left; rfl

/-- The multi-select branch cannot raise `TypeError` when given a
string, or a list all of whose elements are hashable (so that
`set(value)` succeeds). -/
theorem okOrValidation_checkMultiselect (f : CustomField) (v : Value)
    (h : f.type = CFType.multiselect →
      (∃ l, v = Value.list l ∧ (l.any fun x => isUnhashable x) = false) ∨
      (∃ s, v = Value.str s)) :
    okOrValidation (checkMultiselect f v) := by
  unfold checkMultiselect
  split
  · rename_i hc
    rcases h hc with ⟨l, rfl, hhash⟩ | ⟨s, rfl⟩
    · simp only [hhash, Bool.false_eq_true, if_false]
      exact okOrValidation_ite _ _
    · exact okOrValidation_ite _ _
  · left; rfl

/-- C3 counterexample: an integer field with `validation_minimum = 3`
given the string "5".  The string converts losslessly via `int("5")`,
but the bound check compares the raw string against the bound
(`"5" < 3`), and CPython raises `TypeError` there, which `validate` does
not catch — so `validate` can fail other than with a `ValidationError`. -/
theorem validate_typeerror_counterexample :
    CustomField.validate (fun _ _ => true)
      { pk := 1, name := "count", type := CFType.integer, required := false,
        default := Value.none, validation_minimum := some 3, validation_maximum := Option.none,
        validation_regex := "", choices := [], content_types := [] }
      (Value.str "5") = Except.error VErr.typeError := by rfl

/-- C3 amended: `validate` either succeeds or fails with a
`ValidationError` provided the value's runtime type fits the field's
checks (an `int`/`bool` for integer fields, a string for regex-checked
text, a `date` or string for date fields, a string or a list of
hashable elements for multi-select; boolean, url and select accept any
runtime type without `TypeError`).  Outside those shapes an uncaught
`TypeError` is possible: the counterexample above for the bound checks,
and `set(value)` on a list holding a nested list for multi-select. -/
theorem validate_ok_or_validationerror (rm : String → String → Bool)
    (f : CustomField) (v : Value) (h : runtimeTyped f.type v = true) :
    CustomField.validate rm f v = Except.ok () ∨
      ∃ msg, CustomField.validate rm f v = Except.error (VErr.validation msg) := by
  have h1 : okOrValidation (checkTextRegex rm f v) := by
    refine okOrValidation_checkTextRegex rm f v ?_
    intro ht _
    rw [ht] at h
    cases v <;> first | (exact ⟨_, rfl⟩) | simp [runtimeTyped] at h
  have h2 : okOrValidation (checkInteger f v) := by
    refine okOrValidation_checkInteger f v ?_
    intro ht
    rw [ht] at h
    cases v <;> first
      | (exact Or.inl ⟨_, rfl⟩)
      | (exact Or.inr ⟨_, rfl⟩)
      | simp [runtimeTyped] at h
  have h3 : okOrValidation (checkBoolean f v) := okOrValidation_checkBoolean f v
  have h4 : okOrValidation (checkDate f v) := by
    refine okOrValidation_checkDate f v ?_
    intro ht
    rw [ht] at h
    cases v <;> first
      | (exact Or.inl ⟨_, _, _, rfl⟩)
      | (exact Or.inr ⟨_, rfl⟩)
      | simp [runtimeTyped] at h
  have h5 : okOrValidation (checkSelect f v) := okOrValidation_checkSelect f v
  have h6 : okOrValidation (checkMultiselect f v) := by
    refine okOrValidation_checkMultiselect f v ?_
    intro ht
    rw [ht] at h
    cases v with
    | str s => exact Or.inr ⟨s, rfl⟩
    | list vs =>
      refine Or.inl ⟨vs, rfl, ?_⟩
      simp only [runtimeTyped, List.all_eq_true] at h
      cases hany : vs.any fun x => isUnhashable x with
      | false => rfl
      | true =>
        exfalso
        rw [List.any_eq_true] at hany
        obtain ⟨x, hx, hun⟩ := hany
        have := h x hx
        simp [hun] at this
    | none => simp [runtimeTyped] at h
    | int n => simp [runtimeTyped] at h
    | bool b => simp [runtimeTyped] at h
    | date y m d => simp [runtimeTyped] at h
  have main : okOrValidation (CustomField.validate rm f v) := by
    unfold CustomField.validate
    by_cases hemp : isEmptyVal v = true
    · rw [if_pos hemp]
      split
      · right; exact ⟨_, rfl⟩
      · left; rfl
    · rw [if_neg hemp]
      exact okOrValidation_bind _ _ h1 (okOrValidation_bind _ _ h2
        (okOrValidation_bind _ _ h3 (okOrValidation_bind _ _ h4
          (okOrValidation_bind _ _ h5 h6))))
  exact main

/-- Witness for the amended C3: a multi-select field given a list value
resolves without `TypeError`. -/
theorem validate_ok_or_validationerror_witness :
    runtimeTyped CFType.multiselect (Value.list [Value.str "a"]) = true ∧
    (CustomField.validate (fun _ _ => true)
        { pk := 1, name := "tags", type := CFType.multiselect, required := false,
          default := Value.none, validation_minimum := Option.none, validation_maximum := Option.none,
          validation_regex := "", choices := ["a", "b"], content_types := [] }
        (Value.list [Value.str "a"]) = Except.ok () ∨
      ∃ msg, CustomField.validate (fun _ _ => true)
        { pk := 1, name := "tags", type := CFType.multiselect, required := false,
          default := Value.none, validation_minimum := Option.none, validation_maximum := Option.none,
          validation_regex := "", choices := ["a", "b"], content_types := [] }
        (Value.list [Value.str "a"]) = Except.error (VErr.validation msg)) := by
  refine ⟨rfl, ?_⟩
  exact validate_ok_or_validationerror (fun _ _ => true)
    { pk := 1, name := "tags", type := CFType.multiselect, required := false,
      default := Value.none, validation_minimum := Option.none, validation_maximum := Option.none,
      validation_regex := "", choices := ["a", "b"], content_types := [] }
    (Value.list [Value.str "a"]) (by rfl)

/-- On an actual `int`, the integer branch succeeds exactly when the
inclusive bounds (when set) hold. -/
theorem checkInteger_int_ok_iff (f : CustomField) (n : Int) (h : f.type = CFType.integer) :
    checkInteger f (Value.int n) = Except.ok () ↔
      ((∀ m, f.validation_minimum = some m → m ≤ n) ∧
       (∀ mx, f.validation_maximum = some mx → n ≤ mx)) := by
  rcases hmin : f.validation_minimum with _ | m <;>
  rcases hmax : f.validation_maximum with _ | mx <;>
  · simp [checkInteger, h, hmin, hmax, pyInt, pyLtInt, pyGtInt]
    repeat' split
    all_goals (simp_all <;> omega)

/-- Sequencing with a trailing success succeeds iff the step does. -/
theorem bind_trailing_ok_iff (x : Except VErr Unit) :
    (Except.bind x fun _ => (Except.ok () : Except VErr Unit)) = Except.ok () ↔
      x = Except.ok () := by
  cases x <;> simp [Except.bind]

/-- C4 counterexample: for an integer field with `validation_minimum = 3`
and the value "5", the spec's claimed success condition holds — "5" is
losslessly convertible to 5 and 3 ≤ 5 — yet `validate` does not succeed:
it raises an uncaught `TypeError` comparing the raw string to the bound. -/
theorem validate_integer_spec_counterexample :
    specIntegerOk
      { pk := 1, name := "count", type := CFType.integer, required := false,
        default := Value.none, validation_minimum := some 3, validation_maximum := Option.none,
        validation_regex := "", choices := [], content_types := [] }
      (Value.str "5") ∧
    CustomField.validate (fun _ _ => true)
      { pk := 1, name := "count", type := CFType.integer, required := false,
        default := Value.none, validation_minimum := some 3, validation_maximum := Option.none,
        validation_regex := "", choices := [], content_types := [] }
      (Value.str "5") = Except.error VErr.typeError := by
  constructor
  · refine ⟨5, by rfl, ?_, ?_⟩
    · intro m hm
      simp only [Option.some.injEq] at hm
      omega
    · intro mx hmx
      simp at hmx
  · rfl

/-- C4 amended: for an integer field given an actual integer value,
`validate` succeeds iff the value lies within the inclusive bounds when
they are set.  (For non-integer runtime values the equivalence fails:
e.g. a parseable string passes when no bound is set but raises an
uncaught `TypeError` once a bound is set, as the counterexample shows.) -/
theorem validate_integer_ok_iff (rm : String → String → Bool)
    (f : CustomField) (n : Int) (h : f.type = CFType.integer) :
    CustomField.validate rm f (Value.int n) = Except.ok () ↔
      ((∀ m, f.validation_minimum = some m → m ≤ n) ∧
       (∀ mx, f.validation_maximum = some mx → n ≤ mx)) := by
  have hne : ¬(isEmptyVal (Value.int n) = true) := by simp [isEmptyVal, pyEq]
  have ht : checkTextRegex rm f (Value.int n) = Except.ok () := by
    simp [checkTextRegex, h]
  have hb : checkBoolean f (Value.int n) = Except.ok () := by
    simp [checkBoolean, h]
  have hd : checkDate f (Value.int n) = Except.ok () := by
    simp [checkDate, h]
  have hs : checkSelect f (Value.int n) = Except.ok () := by
    simp [checkSelect, h]
  have hm : checkMultiselect f (Value.int n) = Except.ok () := by
    simp [checkMultiselect, h]
  unfold CustomField.validate
  rw [if_neg hne]
  simp only [ht, hb, hd, hs, hm, Bind.bind, Except.bind]
  have hiff := checkInteger_int_ok_iff f n h
  cases hci : checkInteger f (Value.int n) with
  | ok v =>
    simp [hci] at hiff ⊢
    exact hiff
  | error e =>
    simp [hci] at hiff ⊢
    exact hiff

/-- Witness for the amended C4: an integer field with bounds [1, 10]
accepts the integer 5. -/
theorem validate_integer_ok_iff_witness :
    CustomField.validate (fun _ _ => true)
      { pk := 1, name := "count", type := CFType.integer, required := false,
        default := Value.none, validation_minimum := some 1, validation_maximum := some 10,
        validation_regex := "", choices := [], content_types := [] }
      (Value.int 5) = Except.ok () := by
  exact (validate_integer_ok_iff (fun _ _ => true)
    { pk := 1, name := "count", type := CFType.integer, required := false,
      default := Value.none, validation_minimum := some 1, validation_maximum := some 10,
      validation_regex := "", choices := [], content_types := [] }
    5 (by rfl)).mpr
    (by
      constructor
      · intro m hm
        simp only [Option.some.injEq] at hm
        omega
      · intro mx hmx
        simp only [Option.some.injEq] at hmx
        omega)

/-- C9 counterexample: a multi-select field whose default `["a"]`
passes its own validation (its element "a" is a choice), but whose
choice set also holds an entry literally valued "['a']".  The CharField
lookup `choices.filter(value=default)` coerces the list default through
`str()`, matches that entry, and reseeds the initial value to the
string "['a']", which is not the default. -/
theorem to_form_field_initial_counterexample :
    CustomField.validate (fun _ _ => true)
      { pk := 1, name := "tags", type := CFType.multiselect, required := false,
        default := Value.list [Value.str "a"], validation_minimum := Option.none,
        validation_maximum := Option.none, validation_regex := "",
        choices := ["a", "['a']"], content_types := [3] }
      (Value.list [Value.str "a"]) = Except.ok () ∧
    (CustomField.to_form_field
      { pk := 1, name := "tags", type := CFType.multiselect, required := false,
        default := Value.list [Value.str "a"], validation_minimum := Option.none,
        validation_maximum := Option.none, validation_regex := "",
        choices := ["a", "['a']"], content_types := [3] }
      true true false).initial = Value.str "['a']" ∧
    (CustomField.to_form_field
      { pk := 1, name := "tags", type := CFType.multiselect, required := false,
        default := Value.list [Value.str "a"], validation_minimum := Option.none,
        validation_maximum := Option.none, validation_regex := "",
        choices := ["a", "['a']"], content_types := [3] }
      true true false).initial ≠ Value.list [Value.str "a"] := by
  refine ⟨rfl, rfl, ?_⟩
  intro hcontra
  have h2 : (CustomField.to_form_field
      { pk := 1, name := "tags", type := CFType.multiselect, required := false,
        default := Value.list [Value.str "a"], validation_minimum := Option.none,
        validation_maximum := Option.none, validation_regex := "",
        choices := ["a", "['a']"], content_types := [3] }
      true true false).initial = Value.str "['a']" := rfl
  rw [h2] at hcontra
  exact Value.noConfusion hcontra

/-- C9 amended: when a field's default passes the field's own
validation, `to_form_field` with `set_initial = true` seeds the form
field's initial value with exactly the default, provided the default is
a string (in particular every validated single-select default), is
null, or — when it is any other value — no choice value collides with
its `str()` rendering.  With such a collision the found choice reseeds
the initial away from the default, as the counterexample shows. -/
theorem to_form_field_initial_roundtrip (rm : String → String → Bool)
    (f : CustomField) (er fc : Bool)
    (_h : CustomField.validate rm f f.default = Except.ok ())
    (hsafe : (∃ s, f.default = Value.str s) ∨ f.default = Value.none ∨
      (f.choices.find? fun c => c == pyStr f.default) = Option.none) :
    (CustomField.to_form_field f true er fc).initial = f.default := by
  cases htype : f.type with
  | text | integer | boolean | date | url =>
    simp [CustomField.to_form_field, htype]
  | select | multiselect =>
    rcases hsafe with ⟨s, hdef⟩ | hdef | hfindnone
    · cases hfind : f.choices.find? (fun c => c == s) with
      | none => simp [CustomField.to_form_field, htype, hdef, pyStr, hfind]
      | some c =>
        have hc : c = s := by simpa using List.find?_some hfind
        simp [CustomField.to_form_field, htype, hdef, pyStr, hfind, hc]
    · simp [CustomField.to_form_field, htype, hdef]
    · cases hdefv : f.default <;> rw [hdefv] at hfindnone <;>
        simp [CustomField.to_form_field, htype, hdefv, hfindnone]

/-- Witness for the amended C9: a select field whose default "gold" is
one of its choices gets initial value "gold" in its form field. -/
theorem to_form_field_initial_roundtrip_witness :
    (CustomField.to_form_field
      { pk := 1, name := "tier", type := CFType.select, required := true,
        default := Value.str "gold", validation_minimum := Option.none,
        validation_maximum := Option.none, validation_regex := "",
        choices := ["gold", "silver"], content_types := [3] }
      true true false).initial = Value.str "gold" := by
  exact to_form_field_initial_roundtrip (fun _ _ => true)
    { pk := 1, name := "tier", type := CFType.select, required := true,
      default := Value.str "gold", validation_minimum := Option.none,
      validation_maximum := Option.none, validation_regex := "",
      choices := ["gold", "silver"], content_types := [3] }
    true false (by rfl) (Or.inl ⟨"gold", rfl⟩)

/-- A positive default-guard outcome short-circuits `delete` with the
choice table untouched. -/
theorem choice_delete_of_defaultCheck (self : CustomFieldChoice)
    (rows : List (Nat × String)) (db : List (Nat × List (List (String × Value))))
    (r : ChoiceDeleteResult) (hdc : defaultCheck self = some r) :
    CustomFieldChoice.delete self rows db = (rows, r) := by
  simp [CustomFieldChoice.delete, hdc]

/-- `delete` reports the default-protection error exactly when the
default guard does. -/
theorem choice_delete_isDefault_iff (self : CustomFieldChoice)
    (rows : List (Nat × String)) (db : List (Nat × List (List (String × Value)))) :
    (CustomFieldChoice.delete self rows db).2 = ChoiceDeleteResult.isDefaultError ↔
      defaultCheck self = some ChoiceDeleteResult.isDefaultError := by
  cases hdc : defaultCheck self with
  | some r => simp [CustomFieldChoice.delete, hdc]
  | none =>
    simp only [CustomFieldChoice.delete, hdc]
    split <;> split <;> simp

/-- The default guard on a string default: protection requires a
non-empty default and fires on equality for a select field, and
otherwise on Python substring containment of the entry's value in the
default. -/
theorem defaultCheck_str (self : CustomFieldChoice) (d : String)
    (hd : self.field.default = Value.str d) :
    defaultCheck self = some ChoiceDeleteResult.isDefaultError ↔
      (d ≠ "" ∧ ((self.field.type = CFType.select ∧ d = self.value) ∨
        strContains d self.value = true)) := by
  by_cases hdemp : d = ""
  · subst hdemp
    have hfalse : truthy (Value.str "") = false := by decide
    simp [defaultCheck, hd, hfalse]
  · by_cases hb1 : self.field.type = CFType.select ∧ d = self.value
    · simp [defaultCheck, hd, truthy, pyEq, hdemp, hb1, String.isEmpty_iff]
    · by_cases hsc : strContains d self.value = true
      · simp [defaultCheck, hd, truthy, pyEq, pyIn, hdemp, hb1, hsc, String.isEmpty_iff]
      · simp [defaultCheck, hd, truthy, pyEq, pyIn, hdemp, hb1, hsc, String.isEmpty_iff]

/-- The default guard on a list default: protection requires a
non-empty list and fires on Python membership of the entry's value. -/
theorem defaultCheck_list (self : CustomFieldChoice) (ds : List Value)
    (hd : self.field.default = Value.list ds) :
    defaultCheck self = some ChoiceDeleteResult.isDefaultError ↔
      (ds ≠ [] ∧ (ds.any fun x => pyEq x (Value.str self.value)) = true) := by
  by_cases hdemp : ds = []
  · subst hdemp
    simp [defaultCheck, hd, truthy]
  · by_cases hmem : (ds.any fun x => pyEq x (Value.str self.value)) = true
    · simp [defaultCheck, hd, truthy, pyEq, pyIn, hdemp, hmem]
    · simp [defaultCheck, hd, truthy, pyEq, pyIn, hdemp, hmem]

/-- C5 counterexample: a single-select field with default "gold-plus"
and a choice entry "gold".  The default does not equal the entry's
value, so the claim says no `ChoiceIsDefaultError` — yet `delete`
refuses: the `elif self.value in self.field.default` branch does a
Python substring test on the string default, and "gold" occurs inside
"gold-plus". -/
theorem choice_delete_default_counterexample :
    (CustomFieldChoice.delete
      { pk := 5,
        field := { pk := 1, name := "tier", type := CFType.select, required := true,
                   default := Value.str "gold-plus", validation_minimum := Option.none,
                   validation_maximum := Option.none, validation_regex := "",
                   choices := ["gold", "gold-plus"], content_types := [3] },
        value := "gold", weight := 100 }
      [(5, "gold"), (6, "gold-plus")] []).2 = ChoiceDeleteResult.isDefaultError ∧
    pyEq (Value.str "gold-plus") (Value.str "gold") = false := by
  exact ⟨rfl, rfl⟩

/-- C5 amended: `delete` raises `ChoiceIsDefaultError` exactly when the
field's default is truthy and either (select) it equals the entry's
value, or the entry's value is contained in the default under Python
`in` — substring containment for a string default (so a select entry
whose value is a substring of the default is also refused), membership
for a list default; and a protected delete leaves the choice table
unchanged. -/
theorem choice_delete_default_protection (self : CustomFieldChoice)
    (rows : List (Nat × String)) (db : List (Nat × List (List (String × Value)))) :
    (∀ d, self.field.default = Value.str d →
      ((CustomFieldChoice.delete self rows db).2 = ChoiceDeleteResult.isDefaultError ↔
        (d ≠ "" ∧ ((self.field.type = CFType.select ∧ d = self.value) ∨
          strContains d self.value = true)))) ∧
    (∀ ds, self.field.default = Value.list ds →
      ((CustomFieldChoice.delete self rows db).2 = ChoiceDeleteResult.isDefaultError ↔
        (ds ≠ [] ∧ (ds.any fun x => pyEq x (Value.str self.value)) = true))) ∧
    ((CustomFieldChoice.delete self rows db).2 = ChoiceDeleteResult.isDefaultError →
      (CustomFieldChoice.delete self rows db).1 = rows) := by
  refine ⟨?_, ?_, ?_⟩
  · intro d hd
    rw [choice_delete_isDefault_iff]
    exact defaultCheck_str self d hd
  · intro ds hd
    rw [choice_delete_isDefault_iff]
    exact defaultCheck_list self ds hd
  · intro hprot
    have hdc := (choice_delete_isDefault_iff self rows db).mp hprot
    rw [choice_delete_of_defaultCheck self rows db ChoiceDeleteResult.isDefaultError hdc]

/-- Witness for the amended C5: value "live" is a substring of the
select field's default "liver", so `delete` is refused with the
default-protection error even though default ≠ value. -/
theorem choice_delete_default_protection_witness :
    (CustomFieldChoice.delete
      { pk := 7,
        field := { pk := 2, name := "organ", type := CFType.select, required := false,
                   default := Value.str "liver", validation_minimum := Option.none,
                   validation_maximum := Option.none, validation_regex := "",
                   choices := ["live", "liver"], content_types := [4] },
        value := "live", weight := 100 }
      [(7, "live")] []).2 = ChoiceDeleteResult.isDefaultError := by
  exact ((choice_delete_default_protection
    { pk := 7,
      field := { pk := 2, name := "organ", type := CFType.select, required := false,
                 default := Value.str "liver", validation_minimum := Option.none,
                 validation_maximum := Option.none, validation_regex := "",
                 choices := ["live", "liver"], content_types := [4] },
      value := "live", weight := 100 }
    [(7, "live")] []).1 "liver" rfl).mpr
    ⟨by decide, Or.inr (by decide)⟩

/-- The select-field in-use scan is positive exactly when some record of
some applicable content type stores the entry's value for the field. -/
theorem selectInUse_iff (self : CustomFieldChoice)
    (db : List (Nat × List (List (String × Value)))) :
    selectInUse self db = true ↔
      ∃ ct ∈ self.field.content_types, ∃ bag ∈ recordsOf db ct, ∃ v,
        bagGet bag self.field.name = some v ∧ pyEq v (Value.str self.value) = true := by
  unfold selectInUse
  rw [List.any_eq_true]
  constructor
  · rintro ⟨ct, hct, hbag⟩
    rw [List.any_eq_true] at hbag
    obtain ⟨bag, hbagmem, hmatch⟩ := hbag
    refine ⟨ct, hct, bag, hbagmem, ?_⟩
    cases hv : bagGet bag self.field.name with
    | none => rw [hv] at hmatch; simp at hmatch
    | some v => rw [hv] at hmatch; exact ⟨v, rfl, hmatch⟩
  · rintro ⟨ct, hct, bag, hbag, v, hv, hp⟩
    refine ⟨ct, hct, ?_⟩
    rw [List.any_eq_true]
    refine ⟨bag, hbag, ?_⟩
    rw [hv]
    exact hp

/-- The non-select in-use scan is positive exactly when some record of
some applicable content type stores a value containing the entry's
value (`__contains` lookup). -/
theorem multiInUse_iff (self : CustomFieldChoice)
    (db : List (Nat × List (List (String × Value)))) :
    multiInUse self db = true ↔
      ∃ ct ∈ self.field.content_types, ∃ bag ∈ recordsOf db ct, ∃ v,
        bagGet bag self.field.name = some v ∧ jsonContains v self.value = true := by
  unfold multiInUse
  rw [List.any_eq_true]
  constructor
  · rintro ⟨ct, hct, hbag⟩
    rw [List.any_eq_true] at hbag
    obtain ⟨bag, hbagmem, hmatch⟩ := hbag
    refine ⟨ct, hct, bag, hbagmem, ?_⟩
    cases hv : bagGet bag self.field.name with
    | none => rw [hv] at hmatch; simp at hmatch
    | some v => rw [hv] at hmatch; exact ⟨v, rfl, hmatch⟩
  · rintro ⟨ct, hct, bag, hbag, v, hv, hp⟩
    refine ⟨ct, hct, ?_⟩
    rw [List.any_eq_true]
    refine ⟨bag, hbag, ?_⟩
    rw [hv]
    exact hp

/-- C6: past the default guard, `delete` on a selection field fails with
the in-use protection error iff some record of some content type the
field applies to stores the entry's value (exact match for select,
containment for multi-select), leaving the choice table untouched; with
no such record the entry is removed from the choice table. -/
theorem choice_delete_inuse_scan (self : CustomFieldChoice)
    (rows : List (Nat × String)) (db : List (Nat × List (List (String × Value))))
    (hdc : defaultCheck self = Option.none)
    (_htype : self.field.type = CFType.select ∨ self.field.type = CFType.multiselect) :
    ((CustomFieldChoice.delete self rows db).2 = ChoiceDeleteResult.inUseError ↔
      ∃ ct ∈ self.field.content_types, ∃ bag ∈ recordsOf db ct, ∃ v,
        bagGet bag self.field.name = some v ∧
        (if self.field.type = CFType.select then pyEq v (Value.str self.value) = true
         else jsonContains v self.value = true)) ∧
    ((CustomFieldChoice.delete self rows db).2 = ChoiceDeleteResult.inUseError →
      (CustomFieldChoice.delete self rows db).1 = rows) ∧
    ((CustomFieldChoice.delete self rows db).2 ≠ ChoiceDeleteResult.inUseError →
      (CustomFieldChoice.delete self rows db).2 = ChoiceDeleteResult.deleted ∧
      (CustomFieldChoice.delete self rows db).1 = rows.filter fun p => p.1 != self.pk) := by
  by_cases hsel : self.field.type = CFType.select
  · by_cases hin : selectInUse self db = true
    · have hres : CustomFieldChoice.delete self rows db = (rows, ChoiceDeleteResult.inUseError) := by
        simp [CustomFieldChoice.delete, hdc, hsel, hin]
      rw [hres]
      refine ⟨?_, fun _ => rfl, fun hne => absurd rfl hne⟩
      simp only [hsel, if_true]
      constructor
      · intro _
        simpa [hsel] using (selectInUse_iff self db).mp hin
      · intro _
        trivial
    · have hres : CustomFieldChoice.delete self rows db =
          (rows.filter fun p => p.1 != self.pk, ChoiceDeleteResult.deleted) := by
        simp [CustomFieldChoice.delete, hdc, hsel, hin]
      rw [hres]
      refine ⟨?_, ?_, fun _ => ⟨rfl, rfl⟩⟩
      · constructor
        · intro hcontr
          simp at hcontr
        · intro hex
          exact absurd ((selectInUse_iff self db).mpr (by simpa [hsel] using hex)) hin
      · intro hcontr
        simp at hcontr
  · by_cases hin : multiInUse self db = true
    · have hres : CustomFieldChoice.delete self rows db = (rows, ChoiceDeleteResult.inUseError) := by
        simp [CustomFieldChoice.delete, hdc, hsel, hin]
      rw [hres]
      refine ⟨?_, fun _ => rfl, fun hne => absurd rfl hne⟩
      constructor
      · intro _
        simpa [hsel] using (multiInUse_iff self db).mp hin
      · intro _
        trivial
    · have hres : CustomFieldChoice.delete self rows db =
          (rows.filter fun p => p.1 != self.pk, ChoiceDeleteResult.deleted) := by
        simp [CustomFieldChoice.delete, hdc, hsel, hin]
      rw [hres]
      refine ⟨?_, ?_, fun _ => ⟨rfl, rfl⟩⟩
      · constructor
        · intro hcontr
          simp at hcontr
        · intro hex
          exact absurd ((multiInUse_iff self db).mpr (by simpa [hsel] using hex)) hin
      · intro hcontr
        simp at hcontr

/-- Witness for C6: a select field "env" applied to content type 1,
where a record of type 1 stores "gold"; deleting the "gold" choice is
refused as in use. -/
theorem choice_delete_inuse_scan_witness :
    (CustomFieldChoice.delete
      { pk := 8,
        field := { pk := 3, name := "env", type := CFType.select, required := false,
                   default := Value.none, validation_minimum := Option.none,
                   validation_maximum := Option.none, validation_regex := "",
                   choices := ["gold", "silver"], content_types := [1] },
        value := "gold", weight := 100 }
      [(8, "gold")] [(1, [[("env", Value.str "gold")]])]).2 =
      ChoiceDeleteResult.inUseError := by
  exact (choice_delete_inuse_scan
    { pk := 8,
      field := { pk := 3, name := "env", type := CFType.select, required := false,
                 default := Value.none, validation_minimum := Option.none,
                 validation_maximum := Option.none, validation_regex := "",
                 choices := ["gold", "silver"], content_types := [1] },
      value := "gold", weight := 100 }
    [(8, "gold")] [(1, [[("env", Value.str "gold")]])]
    rfl (Or.inl rfl)).1.mpr
    ⟨1, by simp, [("env", Value.str "gold")], by simp [recordsOf], Value.str "gold",
      by rfl, by simp [pyEq]⟩
